import Mathlib

/-!
Verification of the StealthScout profile lifecycle and change-detection
engine.  The Python sources (pipelines/profile_refresh.py,
pipelines/profile_status_classifier.py, pipelines/insert_profile.py,
streamlit_app/main_functions.py) are shallowly embedded below: profile
dicts become the `Profile` structure, the change detector becomes
`compare_profile_changes`, the classifier gateway becomes
`get_profile_status` and `check_profile_status_with_verification`
(with the external LLM call and the interactive human channel passed
in as explicit values), and the label-engine and duration-parser
functions are translated directly.
-/

/-! ## Data model -/

structure Experience where
  company : String
  company_linkedin_url : String
  date_range : String
  duration : String
  title : String
deriving DecidableEq, Repr

structure Education where
  school : String
  degree : String
  field_of_study : String
  date_range : String
deriving DecidableEq, Repr

/-- A profile record, as stored in the database / produced by the scraper.
Scalar counters such as follower_count are compared only for equality by
the code, so they are carried as strings here.  `profile_status` is
`none` when the column is NULL / the key is missing. -/
structure Profile where
  first_name : String
  last_name : String
  full_name : String
  headline : String
  job_title : String
  location : String
  follower_count : String
  connection_count : String
  experience : List Experience
  education : List Education
  previous_companies : List String
  profile_status : Option String
deriving DecidableEq, Repr

/-- A recorded old/new value in a change-set entry. -/
inductive Value where
  | s : String → Value
  | n : Nat → Value
  | strs : List String → Value
deriving DecidableEq, Repr

/-- The change-set shape built by compare_profile_changes:
changed_fields, the changes mapping (kept as an association list in
insertion order) and the has_changes flag. -/
structure ChangeSet where
  changed_fields : List String
  changes : List (String × Value × Value)
  has_changes : Bool
deriving DecidableEq, Repr

/-- The dict `{"changed_fields": [], "changes": {}, "has_changes": False}`
that compare_profile_changes starts from. -/
def ChangeSet.init : ChangeSet := ⟨[], [], false⟩

/-- One append step of compare_profile_changes: push the field name,
record the old/new pair, and set has_changes to True. -/
def ChangeSet.add (cs : ChangeSet) (fieldName : String) (oldV newV : Value) : ChangeSet :=
  ⟨cs.changed_fields ++ [fieldName], cs.changes ++ [(fieldName, oldV, newV)], true⟩

/-- The `if old_value != new_value: ...` guard around each append. -/
def ChangeSet.addIf (cs : ChangeSet) (cond : Bool) (fieldName : String) (oldV newV : Value) :
    ChangeSet :=
  if cond then cs.add fieldName oldV newV else cs

/-- `[exp.get("company", "") for exp in exps if exp.get("company")]`:
the non-empty company names of an experience list, in order. -/
def scrapedCompanies (exps : List Experience) : List String :=
  exps.filterMap fun e => if e.company = "" then none else some e.company

/-! ## Change Detector (profile_refresh.compare_profile_changes) -/

def compare_profile_changes (old_profile new_profile : Profile) : ChangeSet :=
  let cs := ChangeSet.init
  -- Basic field comparison
  let cs := cs.addIf (decide (old_profile.first_name ≠ new_profile.first_name))
      "first_name" (.s old_profile.first_name) (.s new_profile.first_name)
  let cs := cs.addIf (decide (old_profile.last_name ≠ new_profile.last_name))
      "last_name" (.s old_profile.last_name) (.s new_profile.last_name)
  let cs := cs.addIf (decide (old_profile.headline ≠ new_profile.headline))
      "headline" (.s old_profile.headline) (.s new_profile.headline)
  let cs := cs.addIf (decide (old_profile.job_title ≠ new_profile.job_title))
      "job_title" (.s old_profile.job_title) (.s new_profile.job_title)
  let cs := cs.addIf (decide (old_profile.location ≠ new_profile.location))
      "location" (.s old_profile.location) (.s new_profile.location)
  let cs := cs.addIf (decide (old_profile.follower_count ≠ new_profile.follower_count))
      "follower_count" (.s old_profile.follower_count) (.s new_profile.follower_count)
  let cs := cs.addIf (decide (old_profile.connection_count ≠ new_profile.connection_count))
      "connection_count" (.s old_profile.connection_count) (.s new_profile.connection_count)
  -- Experience comparison - list lengths
  let cs := cs.addIf (decide (old_profile.experience.length ≠ new_profile.experience.length))
      "experience_count" (.n old_profile.experience.length) (.n new_profile.experience.length)
  -- Check first role in detail (most recent); only when both lists are non-empty
  let cs :=
    match old_profile.experience, new_profile.experience with
    | oldExp :: _, newExp :: _ =>
      let cs := cs.addIf (decide (oldExp.company ≠ newExp.company))
          "recent_experience_company" (.s oldExp.company) (.s newExp.company)
      let cs := cs.addIf (decide (oldExp.title ≠ newExp.title))
          "recent_experience_title" (.s oldExp.title) (.s newExp.title)
      let cs := cs.addIf (decide (oldExp.duration ≠ newExp.duration))
          "recent_experience_duration" (.s oldExp.duration) (.s newExp.duration)
      cs.addIf (decide (oldExp.date_range ≠ newExp.date_range))
          "recent_experience_date_range" (.s oldExp.date_range) (.s newExp.date_range)
    | _, _ => cs
  -- Education comparison - lengths only
  let cs := cs.addIf (decide (old_profile.education.length ≠ new_profile.education.length))
      "education_count" (.n old_profile.education.length) (.n new_profile.education.length)
  -- Previous companies comparison: old stored list vs the set derived from
  -- the NEW experience list, compared as sets
  let oldCompanies := old_profile.previous_companies.toFinset
  let newCompanies := (scrapedCompanies new_profile.experience).toFinset
  cs.addIf (decide (oldCompanies ≠ newCompanies))
      "previous_companies" (.strs (oldCompanies.sort (· ≤ ·)))
      (.strs (newCompanies.sort (· ≤ ·)))

/-- A profile whose stored previous_companies column agrees (as a set)
with the company names derived from its own experience list — the shape
the insert pipeline (linkedin_profile_scraper) and the refresh update
(prepare_profile_updates) both write. -/
def canonicalPrev (p : Profile) : Prop :=
  p.previous_companies.toFinset = (scrapedCompanies p.experience).toFinset

instance (p : Profile) : Decidable (canonicalPrev p) := by
  unfold canonicalPrev; infer_instance

/-- The all-defaults profile value. -/
def emptyProfile : Profile :=
  ⟨"", "", "", "", "", "", "", "", [], [], [], none⟩

/-! ## Basic change-set lemmas -/

theorem addIf_changed_fields (cs : ChangeSet) (c : Bool) (f : String) (o n : Value) :
    (cs.addIf c f o n).changed_fields
      = cs.changed_fields ++ (if c then [f] else []) := by
  cases c <;> simp [ChangeSet.addIf, ChangeSet.add]

theorem addIf_changes (cs : ChangeSet) (c : Bool) (f : String) (o n : Value) :
    (cs.addIf c f o n).changes
      = cs.changes ++ (if c then [(f, o, n)] else []) := by
  cases c <;> simp [ChangeSet.addIf, ChangeSet.add]

theorem addIf_has_changes (cs : ChangeSet) (c : Bool) (f : String) (o n : Value) :
    (cs.addIf c f o n).has_changes = (cs.has_changes || c) := by
  cases c <;> simp [ChangeSet.addIf, ChangeSet.add]

/-- Invariant of the change-set builder: the flag tracks non-emptiness. -/
def csInv (cs : ChangeSet) : Prop :=
  cs.has_changes = true ↔ cs.changed_fields ≠ []

theorem csInv_init : csInv ChangeSet.init := by
  simp [csInv, ChangeSet.init]

theorem csInv_addIf {cs : ChangeSet} (h : csInv cs) (c : Bool) (f : String) (o n : Value) :
    csInv (cs.addIf c f o n) := by
  cases c
  · simpa [ChangeSet.addIf] using h
  · simp [ChangeSet.addIf, ChangeSet.add, csInv]

theorem compare_csInv (a b : Profile) : csInv (compare_profile_changes a b) := by
  unfold compare_profile_changes
  cases a.experience <;> cases b.experience <;>
    { dsimp only
      repeat apply csInv_addIf
      exact csInv_init }

/-! ## Mirror structure of the detector (old/new swapped) -/

/-- Swap the old and new component of every recorded pair, keeping the
field list and flag. -/
def ChangeSet.mirror (cs : ChangeSet) : ChangeSet :=
  ⟨cs.changed_fields, cs.changes.map (fun e => (e.1, e.2.2, e.2.1)), cs.has_changes⟩

theorem mirror_init : ChangeSet.init.mirror = ChangeSet.init := rfl

theorem mirror_add (cs : ChangeSet) (f : String) (o n : Value) :
    (cs.add f o n).mirror = cs.mirror.add f n o := by
  simp [ChangeSet.add, ChangeSet.mirror]

theorem mirror_addIf (cs : ChangeSet) (c : Bool) (f : String) (o n : Value) :
    (cs.addIf c f o n).mirror = cs.mirror.addIf c f n o := by
  cases c <;> simp [ChangeSet.addIf, mirror_add]

theorem compare_mirror (A B : Profile) (hA : canonicalPrev A) (hB : canonicalPrev B) :
    compare_profile_changes B A = (compare_profile_changes A B).mirror := by
  unfold canonicalPrev at hA hB
  simp only [compare_profile_changes]
  rw [hA, hB]
  cases hEA : A.experience <;> cases hEB : B.experience <;>
    · simp only [mirror_addIf, mirror_init]
      simp only [ne_comm]

/-! ## Claim theorems: change detector -/

/-- C6: for every pair of input profiles, the change-set returned by
compare_profile_changes has has_changes true if and only if its
changed_fields list is non-empty. -/
theorem c6_has_changes_iff_nonempty (a b : Profile) :
    (compare_profile_changes a b).has_changes = true ↔
      (compare_profile_changes a b).changed_fields ≠ [] :=
  compare_csInv a b

/-- C4 (amended): compare_profile_changes(P, P) has has_changes = False
for every profile P whose stored previous_companies agrees, as a set,
with the company names derived from its own experience list.  Without
that agreement the previous_companies branch fires even on identical
inputs (see the counterexample). -/
theorem c4_diff_idempotent (p : Profile) (hp : canonicalPrev p) :
    (compare_profile_changes p p).has_changes = false := by
  unfold canonicalPrev at hp
  simp only [compare_profile_changes]
  rw [hp]
  cases hE : p.experience with
  | nil => simp [ChangeSet.addIf, ChangeSet.init]
  | cons e es => simp [ChangeSet.addIf, ChangeSet.init]

def expAcme : Experience := ⟨"Acme", "", "", "1 yr", "Engineer"⟩

/-- A stored profile whose previous_companies column is out of step with
its experience list (empty column, one named company in experience). -/
def profileMismatch : Profile := { emptyProfile with experience := [expAcme] }

/-- C4 counterexample: on a profile whose previous_companies column does
not match its experience-derived company set, diff(P, P) reports a
change, so the claim is false for arbitrary profiles. -/
theorem c4_counterexample :
    (compare_profile_changes profileMismatch profileMismatch).has_changes = true := by
  decide

theorem c4_witness :
    canonicalPrev emptyProfile ∧
      (compare_profile_changes emptyProfile emptyProfile).has_changes = false :=
  ⟨by decide, c4_diff_idempotent emptyProfile (by decide)⟩

/-- C5 (amended): for profiles whose previous_companies column agrees
with the experience-derived company set, swapping the two arguments of
compare_profile_changes preserves the changed_fields list and swaps the
old/new component of every recorded pair. -/
theorem c5_diff_symmetry (A B : Profile) (hA : canonicalPrev A) (hB : canonicalPrev B) :
    (compare_profile_changes B A).changed_fields
        = (compare_profile_changes A B).changed_fields ∧
      (compare_profile_changes B A).changes
        = (compare_profile_changes A B).changes.map (fun e => (e.1, e.2.2, e.2.1)) := by
  have h := compare_mirror A B hA hB
  exact ⟨by rw [h]; rfl, by rw [h]; rfl⟩

def profilePrevX : Profile := { emptyProfile with previous_companies := ["X"] }

/-- C5 counterexample: with a stale previous_companies column the
changed_fields membership is NOT preserved under swapping the arguments:
diff(profilePrevX, empty) records a previous_companies change while
diff(empty, profilePrevX) does not. -/
theorem c5_counterexample :
    "previous_companies" ∈ (compare_profile_changes profilePrevX emptyProfile).changed_fields ∧
      "previous_companies" ∉ (compare_profile_changes emptyProfile profilePrevX).changed_fields := by
  decide

def profileAcme : Profile :=
  { emptyProfile with experience := [expAcme], previous_companies := ["Acme"] }

theorem c5_witness :
    canonicalPrev emptyProfile ∧ canonicalPrev profileAcme ∧
      ((compare_profile_changes profileAcme emptyProfile).changed_fields
          = (compare_profile_changes emptyProfile profileAcme).changed_fields ∧
        (compare_profile_changes profileAcme emptyProfile).changes
          = (compare_profile_changes emptyProfile profileAcme).changes.map
              (fun e => (e.1, e.2.2, e.2.1))) :=
  ⟨by decide, by decide, c5_diff_symmetry emptyProfile profileAcme (by decide) (by decide)⟩

/-! ## Status Classifier Gateway (profile_status_classifier.py) -/

/-- The parsed (status, confidence) pair produced by get_profile_status.
Both components are plain strings in the code (status is "" on a failed
or unparseable call). -/
structure AIResult where
  status : String
  confidence_label : String
deriving DecidableEq, Repr

/-- The dict returned by check_profile_status_with_verification; its
status can be Python None (only the error branch produces that). -/
structure Classification where
  status : Option String
  confidence_label : String
deriving DecidableEq, Repr

/-- get_profile_status with the external completion passed in as a
value: `none` models an unreachable capability (the request raised inside
the try block), `some text` the raw completion text.  The code strips
and lowercases the text and unpacks `status|confidence`; any failure is
caught and yields status "" with low confidence. -/
def get_profile_status (llm : Option String) : AIResult :=
  match llm with
  | none => ⟨"", "low"⟩
  | some text =>
    match text.trim.toLower.splitOn "|" with
    | [st, conf] => ⟨st.trim, conf.trim⟩
    | _ => ⟨"", "low"⟩

/-- The interactive verification channel: whether the reviewer answers
y to "Is this classification correct?", and the (already stripped and
lowercased) replacement status they type otherwise. -/
structure HumanInput where
  accepts : Bool
  corrected : String
deriving DecidableEq, Repr

/-- check_profile_status_with_verification, with the AI candidate and
the human channel passed in as values.  The returned Bool records
whether the human-confirmation step ran (False exactly on the
auto-approve early return). -/
def check_profile_status_with_verification (ai : AIResult) (auto_approve : Bool)
    (old_status : Option String) (human : HumanInput) : Classification × Bool :=
  -- Only auto-approve if status is unchanged
  let status_unchanged := decide (old_status = some ai.status)
  let should_auto_approve := auto_approve && status_unchanged
  if should_auto_approve then
    (⟨some ai.status, ai.confidence_label⟩, false)
  else if human.accepts then
    (⟨some ai.status, ai.confidence_label⟩, true)
  else
    (⟨some human.corrected, ai.confidence_label⟩, true)

/-- C1: the gateway skips human confirmation (second component False)
and returns the candidate pair exactly when the caller passed
auto_approve and the candidate status equals old_status; any candidate
that differs from old_status goes to human confirmation even with
auto_approve set. -/
theorem c1_auto_approval_policy (ai : AIResult) (auto_approve : Bool)
    (old_status : Option String) (human : HumanInput) :
    ((check_profile_status_with_verification ai auto_approve old_status human).2 = false
        ↔ (auto_approve = true ∧ old_status = some ai.status)) ∧
      check_profile_status_with_verification ai true (some ai.status) human
        = (⟨some ai.status, ai.confidence_label⟩, false) := by
  constructor
  · unfold check_profile_status_with_verification
    cases auto_approve <;> by_cases h : old_status = some ai.status <;>
      cases hacc : human.accepts <;> simp [h, hacc]
  · simp [check_profile_status_with_verification]

/-! ## Refresh-path auto-approval (profile_refresh.prepare_profile_updates) -/

/-- Non-critical fields that can change without manual verification. -/
def non_critical_fields : List String :=
  ["follower_count", "connection_count", "recent_experience_duration"]

/-- The auto_approve flag prepare_profile_updates computes before
calling the classifier: no critical change AND at least one change. -/
def refreshAutoApprove (detected : ChangeSet) : Bool :=
  let changed_fields := detected.changed_fields.toFinset
  let critical_changes := changed_fields \ non_critical_fields.toFinset
  decide (critical_changes.card = 0) && decide (0 < changed_fields.card)

/-- C2: on the refresh path (a detected change-set with has_changes
true), the auto_approve flag handed to the classifier is true exactly
when every changed field lies in the non-critical allow-list. -/
theorem c2_auto_approve_iff_noncritical (a b : Profile)
    (h : (compare_profile_changes a b).has_changes = true) :
    refreshAutoApprove (compare_profile_changes a b) = true ↔
      ∀ f ∈ (compare_profile_changes a b).changed_fields, f ∈ non_critical_fields := by
  have hne : (compare_profile_changes a b).changed_fields ≠ [] := (compare_csInv a b).mp h
  simp only [refreshAutoApprove, Bool.and_eq_true, decide_eq_true_eq]
  constructor
  · rintro ⟨h1, -⟩ f hf
    have hempty : (compare_profile_changes a b).changed_fields.toFinset
        \ non_critical_fields.toFinset = ∅ := Finset.card_eq_zero.mp h1
    have hsub := Finset.sdiff_eq_empty_iff_subset.mp hempty
    exact List.mem_toFinset.mp (hsub (List.mem_toFinset.mpr hf))
  · intro hall
    constructor
    · apply Finset.card_eq_zero.mpr
      apply Finset.sdiff_eq_empty_iff_subset.mpr
      intro x hx
      exact List.mem_toFinset.mpr (hall x (List.mem_toFinset.mp hx))
    · obtain ⟨x, hx⟩ := List.exists_mem_of_ne_nil _ hne
      exact Finset.card_pos.mpr ⟨x, List.mem_toFinset.mpr hx⟩

def oldFollower : Profile := { emptyProfile with follower_count := "100" }

def newFollower : Profile := { emptyProfile with follower_count := "200" }

theorem c2_witness :
    (compare_profile_changes oldFollower newFollower).has_changes = true ∧
      (refreshAutoApprove (compare_profile_changes oldFollower newFollower) = true ↔
        ∀ f ∈ (compare_profile_changes oldFollower newFollower).changed_fields,
          f ∈ non_critical_fields) :=
  ⟨by decide, c2_auto_approve_iff_noncritical oldFollower newFollower (by decide)⟩

/-! ## prepare_profile_updates: the written field set (profile_refresh.py) -/

/-- A value stored into fields_to_update. -/
inductive FieldVal where
  | s : String → FieldVal
  | exps : List Experience → FieldVal
  | edus : List Education → FieldVal
  | strs : List String → FieldVal
  | optS : Option String → FieldVal
deriving DecidableEq, Repr

/-- The fields_to_update dict assembled by prepare_profile_updates,
with the classifier outcome passed in as a value: the base fields are
taken wholesale from the fresh profile, and profile_status plus
status_confidence_label are appended whenever the classification status
differs from the stored one — including when the classification status
is Python None. -/
def prepare_fields_to_update (old_profile new_profile : Profile)
    (classification : Classification) : List (String × FieldVal) :=
  [("first_name", .s new_profile.first_name),
   ("last_name", .s new_profile.last_name),
   ("headline", .s new_profile.headline),
   ("job_title", .s new_profile.job_title),
   ("location", .s new_profile.location),
   ("follower_count", .s new_profile.follower_count),
   ("connection_count", .s new_profile.connection_count),
   ("experience", .exps new_profile.experience),
   ("education", .edus new_profile.education),
   ("previous_companies", .strs (scrapedCompanies new_profile.experience))]
  ++ (if classification.status ≠ old_profile.profile_status then
        [("profile_status", .optS classification.status),
         ("status_confidence_label", .s classification.confidence_label)]
      else [])

def oldStealth : Profile := { emptyProfile with profile_status := some "stealth" }

/-- C3 (code bug): when the external classification capability is
unreachable the gateway's inner call returns status "" (an empty
string, not None) with low confidence, so the flow falls through to
human verification instead of returning a null status; and when a null
status does come back (the gateway's error branch), the refresh caller
does NOT skip the profile: prepare_profile_updates writes
profile_status = None (and a confidence label) into fields_to_update. -/
theorem c3_null_status_not_skipped :
    get_profile_status none = ⟨"", "low"⟩ ∧
      ("profile_status", FieldVal.optS none) ∈
        prepare_fields_to_update oldStealth emptyProfile ⟨none, "low"⟩ ∧
      ("status_confidence_label", FieldVal.s "low") ∈
        prepare_fields_to_update oldStealth emptyProfile ⟨none, "low"⟩ :=
  ⟨rfl, by decide, by decide⟩

/-! ## C10: no deep experience diff when either side has no experience -/

/-- The field identifiers the detector can record outside the
most-recent-role comparison. -/
def coarseFieldNames : List String :=
  ["first_name", "last_name", "headline", "job_title", "location", "follower_count",
   "connection_count", "experience_count", "education_count", "previous_companies"]

theorem subset_addIf {names : List String} {cs : ChangeSet}
    (h1 : ∀ f ∈ cs.changed_fields, f ∈ names) {fname : String} (h2 : fname ∈ names)
    (c : Bool) (o n : Value) :
    ∀ f ∈ (cs.addIf c fname o n).changed_fields, f ∈ names := by
  intro f hf
  rw [addIf_changed_fields] at hf
  rcases List.mem_append.mp hf with hf | hf
  · exact h1 f hf
  · cases c
    · simp at hf
    · simp at hf
      subst hf
      exact h2

theorem subset_init (names : List String) :
    ∀ f ∈ ChangeSet.init.changed_fields, f ∈ names := by
  simp [ChangeSet.init]

/-- C10: if either profile has an empty experience list, the detector
records none of the four recent_experience_* fields — every changed
field is one of the coarse identifiers (scalars, the two counts, or
previous_companies). -/
theorem c10_empty_experience_no_recent_diff (a b : Profile)
    (h : a.experience = [] ∨ b.experience = []) :
    (∀ f ∈ (compare_profile_changes a b).changed_fields, f ∈ coarseFieldNames) ∧
      "recent_experience_company" ∉ (compare_profile_changes a b).changed_fields ∧
      "recent_experience_title" ∉ (compare_profile_changes a b).changed_fields ∧
      "recent_experience_duration" ∉ (compare_profile_changes a b).changed_fields ∧
      "recent_experience_date_range" ∉ (compare_profile_changes a b).changed_fields := by
  have hmain : ∀ f ∈ (compare_profile_changes a b).changed_fields, f ∈ coarseFieldNames := by
    unfold compare_profile_changes
    cases hA : a.experience <;> cases hB : b.experience <;>
      first
        | (dsimp only
           refine subset_addIf ?_ (by decide) _ _ _
           refine subset_addIf ?_ (by decide) _ _ _
           refine subset_addIf ?_ (by decide) _ _ _
           refine subset_addIf ?_ (by decide) _ _ _
           refine subset_addIf ?_ (by decide) _ _ _
           refine subset_addIf ?_ (by decide) _ _ _
           refine subset_addIf ?_ (by decide) _ _ _
           refine subset_addIf ?_ (by decide) _ _ _
           refine subset_addIf ?_ (by decide) _ _ _
           refine subset_addIf ?_ (by decide) _ _ _
           exact subset_init _)
        | (rw [hA] at h
           rw [hB] at h
           simp at h)
  refine ⟨hmain, ?_, ?_, ?_, ?_⟩ <;>
    exact fun hmem => absurd (hmain _ hmem) (by decide)

def profileOneAcme : Profile := { emptyProfile with experience := [expAcme] }

theorem c10_witness :
    (emptyProfile.experience = [] ∨ profileOneAcme.experience = []) ∧
      "recent_experience_title" ∉
        (compare_profile_changes emptyProfile profileOneAcme).changed_fields :=
  ⟨Or.inl rfl,
    ((c10_empty_experience_no_recent_diff emptyProfile profileOneAcme (Or.inl rfl)).2).2.1⟩

/-! ## Label Engine (insert_profile.py) -/

/-- Lowercase a character list (Python str.lower on the ASCII titles
this code handles). -/
def lowerC (l : List Char) : List Char := l.map Char.toLower

/-- Executable prefix test on character lists. -/
def hasPrefixC : List Char → List Char → Bool
  | [], _ => true
  | _ :: _, [] => false
  | a :: as, b :: bs => a == b && hasPrefixC as bs

/-- Executable substring test (Python's `needle in haystack`). -/
def hasSubstrC (needle : List Char) : List Char → Bool
  | [] => hasPrefixC needle []
  | b :: bs => hasPrefixC needle (b :: bs) || hasSubstrC needle bs

theorem hasPrefixC_iff (n h : List Char) : hasPrefixC n h = true ↔ n <+: h := by
  induction n generalizing h with
  | nil => simp [hasPrefixC]
  | cons a as ih =>
    cases h with
    | nil => simp [hasPrefixC]
    | cons b bs =>
      simp [hasPrefixC, ih, List.cons_prefix_cons, Bool.and_eq_true, beq_iff_eq, and_comm]

theorem hasSubstrC_iff (n h : List Char) : hasSubstrC n h = true ↔ n <:+: h := by
  induction h with
  | nil =>
    simp [hasSubstrC, hasPrefixC_iff]
  | cons b bs ih =>
    simp only [hasSubstrC, Bool.or_eq_true, hasPrefixC_iff, ih, List.infix_cons_iff]

/-- The keywords that automatically label a role as a founder role. -/
def founder_keywords : List String :=
  ["founder", "co-founder", "co founder", "chief executive officer", "ceo"]

/-- `any(keyword in role for keyword in founder_keywords)` with
`role = title.lower()`. -/
def titleHasFounderKeyword (title : String) : Bool :=
  founder_keywords.any fun k => hasSubstrC k.data (lowerC title.data)

/-- check_repeat_founder: count the experience entries whose lowered
title contains a founder keyword, and report whether that count exceeds
one; a missing/empty experience list short-circuits to False. -/
def check_repeat_founder (profile : Profile) : Bool :=
  match profile.experience with
  | [] => false
  | _ :: _ =>
    decide (1 < (profile.experience.filter fun e => titleHasFounderKeyword e.title).length)

/-- Declarative reading of the founder-keyword test: some keyword is an
infix of the lowercased title. -/
def FounderTitle (title : String) : Prop :=
  ∃ k ∈ founder_keywords, k.data <:+: lowerC title.data

theorem titleHasFounderKeyword_iff (t : String) :
    titleHasFounderKeyword t = true ↔ FounderTitle t := by
  unfold titleHasFounderKeyword FounderTitle
  simp [List.any_eq_true, hasSubstrC_iff]

instance : DecidablePred FounderTitle := fun t =>
  decidable_of_iff (titleHasFounderKeyword t = true) (titleHasFounderKeyword_iff t)

theorem decide_founder_eq (t : String) :
    decide (FounderTitle t) = titleHasFounderKeyword t := by
  by_cases h : FounderTitle t
  · simp [h, (titleHasFounderKeyword_iff t).mpr h]
  · have hb : titleHasFounderKeyword t = false := by
      cases hb : titleHasFounderKeyword t
      · rfl
      · exact absurd ((titleHasFounderKeyword_iff t).mp hb) h
    simp [h, hb]

/-- C7: check_repeat_founder is true exactly when strictly more than one
experience entry has a title containing (case-insensitively, as a
substring) one of the founder keywords. -/
theorem c7_repeat_founder (p : Profile) :
    check_repeat_founder p = true ↔
      1 < (p.experience.countP fun e => decide (FounderTitle e.title)) := by
  unfold check_repeat_founder
  have hcount : (p.experience.countP fun e => decide (FounderTitle e.title))
      = (p.experience.filter fun e => titleHasFounderKeyword e.title).length := by
    rw [← List.countP_eq_length_filter]
    exact List.countP_congr (fun e _ => by rw [decide_founder_eq])
  rw [hcount]
  cases hE : p.experience with
  | nil => simp
  | cons e es => simp [hE]

/-- extract_company_role with the interactive channel passed in: the
returned Bool records whether the role string was typed by the human
("Please enter the role at company statement") rather than derived from
the single matching experience.  The company comparison lowercases both
sides (Python .lower()); with no experience list at all the function
returns the empty string immediately. -/
def extract_company_role (profile : Profile) (search_company : String) (human : String) :
    String × Bool :=
  match profile.experience with
  | [] => ("", false)
  | _ :: _ =>
    let relevant_experiences :=
      profile.experience.filter fun e => lowerC e.company.data == lowerC search_company.data
    match relevant_experiences with
    | [e] => (e.title ++ " at " ++ search_company ++ " for " ++ e.duration, false)
    | _ => (human, true)

/-- C8 (amended): for a profile with a non-empty experience list,
exactly one case-insensitive company match yields the deterministic
formatted string without consulting the human, and zero or multiple
matches yield the human-supplied value (an explicit manual-input
outcome).  A profile whose experience list is empty instead returns ""
without consulting the human (see the counterexample). -/
theorem c8_role_extraction (p : Profile) (target human : String) (h : p.experience ≠ []) :
    ((p.experience.filter fun e => lowerC e.company.data == lowerC target.data).length = 1 →
        ∃ e, (p.experience.filter fun e => lowerC e.company.data == lowerC target.data) = [e] ∧
          extract_company_role p target human
            = (e.title ++ " at " ++ target ++ " for " ++ e.duration, false)) ∧
      ((p.experience.filter fun e => lowerC e.company.data == lowerC target.data).length ≠ 1 →
        extract_company_role p target human = (human, true)) := by
  cases hE : p.experience with
  | nil => exact absurd hE h
  | cons a as =>
    unfold extract_company_role
    rw [hE]
    constructor
    · intro h1
      obtain ⟨e, he⟩ := List.length_eq_one.mp h1
      refine ⟨e, he, ?_⟩
      dsimp only
      rw [he]
    · intro h1
      dsimp only
      cases hr : (a :: as).filter (fun e => lowerC e.company.data == lowerC target.data) with
      | nil => rfl
      | cons x xs =>
        cases xs with
        | nil => exact absurd (by simp [hr]) h1
        | cons y ys => rfl

/-- C8 counterexample: a profile with an empty experience list has zero
matches at "Acme", yet extract_company_role returns ("", consulted =
false) — not a human-supplied manual-input outcome as the claim
requires for the zero-match case. -/
theorem c8_counterexample :
    (emptyProfile.experience.filter
        fun e => lowerC e.company.data == lowerC "Acme".data).length = 0 ∧
      extract_company_role emptyProfile "Acme" "HUMAN" = ("", false) ∧
      extract_company_role emptyProfile "Acme" "HUMAN" ≠ ("HUMAN", true) := by
  refine ⟨rfl, rfl, ?_⟩
  decide

theorem c8_witness :
    profileOneAcme.experience ≠ [] ∧
      extract_company_role profileOneAcme "acme" "HUMAN"
        = ("Engineer at acme for 1 yr", false) := by
  refine ⟨by decide, ?_⟩
  obtain ⟨hone, -⟩ := c8_role_extraction profileOneAcme "acme" "HUMAN" (by decide)
  obtain ⟨e, he, hres⟩ := hone (by decide)
  have hf : (profileOneAcme.experience.filter
      fun x => lowerC x.company.data == lowerC "acme".data) = [expAcme] := by decide
  rw [hf] at he
  obtain rfl : expAcme = e := by injection he
  exact hres.trans (by decide)

/-! ## Duration Parser (main_functions.parse_duration) -/

/-- The run of leading digits of a character list, and the rest. -/
def takeDigits : List Char → List Char × List Char
  | [] => ([], [])
  | c :: cs =>
    if c.isDigit then
      let p := takeDigits cs
      (c :: p.1, p.2)
    else ([], c :: cs)

/-- Python regex whitespace class \s. -/
def isPySpace (c : Char) : Bool :=
  c = ' ' || c = '\t' || c = '\n' || c = '\r' || c = '\x0b' || c = '\x0c'

/-- Skip the optional whitespace the pattern allows between number and
unit. -/
def dropSpaces : List Char → List Char
  | [] => []
  | c :: cs => if isPySpace c then dropSpaces cs else c :: cs

/-- The alternation (yr|yrs|mo|mos), case-insensitive.  Because the
engine tries yr before yrs and mo before mos, a successful unit match
always consumes exactly the two characters yr or mo (in the original
case); a trailing s is left as unmatched text. -/
def unitMatch : List Char → Option (List Char × List Char)
  | c1 :: c2 :: rest =>
    if (c1.toLower = 'y' ∧ c2.toLower = 'r') ∨ (c1.toLower = 'm' ∧ c2.toLower = 'o') then
      some ([c1, c2], rest)
    else none
  | _ => none

/-- re.findall of the pattern `(\d+)\s*(yr|yrs|mo|mos)` with
IGNORECASE: scan left to right; at a digit, read the digit run, skip
whitespace and try the unit alternation; on success emit the
(number, unit) capture pair and continue after the match, otherwise
continue one character further.  The fuel argument (always at least the
input length plus one, while every step consumes at least one
character) makes the scan structurally recursive. -/
def findTokensF : Nat → List Char → List (List Char × List Char)
  | 0, _ => []
  | _ + 1, [] => []
  | fuel + 1, c :: cs =>
    if c.isDigit then
      let p := takeDigits (c :: cs)
      match unitMatch (dropSpaces p.2) with
      | some (u, rest) => (p.1, u) :: findTokensF fuel rest
      | none => findTokensF fuel cs
    else findTokensF fuel cs

def findall (l : List Char) : List (List Char × List Char) :=
  findTokensF (l.length + 1) l

/-- int() on a captured digit run. -/
def natOfDigits (l : List Char) : Nat :=
  l.foldl (fun n c => n * 10 + (c.toNat - 48)) 0

/-- parse_duration: find all (number, unit) matches, then add
number*12 for units starting with yr and number for units starting
with mo (after lowercasing the captured unit). -/
def parse_duration (duration_string : String) : Nat :=
  (findall duration_string.data).foldl
    (fun total m =>
      let number := natOfDigits m.1
      let unit := lowerC m.2
      if hasPrefixC ['y', 'r'] unit then total + number * 12
      else if hasPrefixC ['m', 'o'] unit then total + number
      else total) 0

/-- The months contributed by one matched token: years count twelve
months, months count one. -/
def tokenMonths (m : List Char × List Char) : Nat :=
  if hasPrefixC ['y', 'r'] (lowerC m.2) then natOfDigits m.1 * 12
  else if hasPrefixC ['m', 'o'] (lowerC m.2) then natOfDigits m.1
  else 0

theorem parse_fold_eq (l : List (List Char × List Char)) (t : Nat) :
    (l.foldl
      (fun total m =>
        let number := natOfDigits m.1
        let unit := lowerC m.2
        if hasPrefixC ['y', 'r'] unit then total + number * 12
        else if hasPrefixC ['m', 'o'] unit then total + number
        else total) t) = t + (l.map tokenMonths).sum := by
  induction l generalizing t with
  | nil => simp
  | cons m ms ih =>
    simp only [List.foldl_cons, List.map_cons, List.sum_cons, ih]
    unfold tokenMonths
    by_cases h1 : hasPrefixC ['y', 'r'] (lowerC m.2) = true <;>
      by_cases h2 : hasPrefixC ['m', 'o'] (lowerC m.2) = true <;>
        simp [h1, h2] <;> ring

/-- C9: parse_duration sums years*12 + months over exactly the tokens
the pattern matches (everything else is ignored), and the concrete
behaviour the spec pins down holds, including case- and
whitespace-insensitivity between number and unit and 0 on empty or
fully-unmatched input. -/
theorem c9_parse_duration :
    (∀ s : String, parse_duration s = ((findall s.data).map tokenMonths).sum) ∧
      parse_duration "2 yrs 3 mos" = 27 ∧
      parse_duration "" = 0 ∧
      parse_duration "5 mo" = 5 ∧
      parse_duration "1 yr" = 12 ∧
      parse_duration "hello world" = 0 ∧
      parse_duration "1 YR 2 MOS" = parse_duration "1yr 2mos" ∧
      parse_duration "1yr 2mos" = 14 := by
  refine ⟨?_, by decide, by decide, by decide, by decide, by decide, by decide, by decide⟩
  intro s
  rw [parse_duration, parse_fold_eq, Nat.zero_add]
